import Mathlib

/-
  Verification development for the Strikers 1945 arcade shooter
  (src/main.py). The definitions below are a shallow embedding of the
  update, firing, spawning, collision and dirty-rect rendering logic of
  the game loop; the theorems settle the specified properties against
  that embedding. Machine integers of the source are modelled as Int and
  Nat; Python floor division and modulo are Int.fdiv and Int.fmod.
-/

namespace Strikers

/-- Game constant MAX_SHOTS (src/main.py line 39): most player bullets onscreen. -/
def MAX_SHOTS : Nat := 2

/-- Game constant ENEMY_ODDS (src/main.py line 40). -/
def ENEMY_ODDS : Nat := 22

/-- Game constant BULLET_ODDS (src/main.py line 41): chances a new enemy bullet is shot. -/
def BULLET_ODDS : Nat := 60

/-- Game constant ENEMY_RELOAD (src/main.py line 42): frames between new enemies. -/
def ENEMY_RELOAD : Nat := 12

/-- SCREENRECT is pg.Rect(0, 0, 640, 480) (src/main.py line 43). -/
def SCREEN_W : Int := 640

/-- Screen height of SCREENRECT (src/main.py line 43). -/
def SCREEN_H : Int := 480

/-- Axis-aligned rectangle with integer pixel coordinates, as pygame Rect:
top-left corner plus size. -/
structure Rect where
  left : Int
  top : Int
  width : Int
  height : Int
deriving DecidableEq, Repr

/-- Right edge of a rectangle (pygame rect.right). -/
def Rect.right (r : Rect) : Int := r.left + r.width

/-- Bottom edge of a rectangle (pygame rect.bottom). -/
def Rect.bottom (r : Rect) : Int := r.top + r.height

/-- Overlap test of pygame colliderect, used by spritecollide and
groupcollide: two rectangles collide iff both have nonzero extent on both
axes and their open extents intersect. -/
def Rect.collide (a b : Rect) : Bool :=
  a.width != 0 && a.height != 0 && b.width != 0 && b.height != 0 &&
  a.left < b.right && b.left < a.right &&
  a.top < b.bottom && b.top < a.bottom

/-- Center point of a rectangle (pygame rect.center); Explosion sprites are
spawned centered at the center of the actor they replace
(src/main.py line 150). -/
def Rect.center (r : Rect) : Int × Int :=
  (r.left + r.width / 2, r.top + r.height / 2)

/-- State of the actor populations that the collision phase of one tick
of main (src/main.py lines 376 to 397) reads and writes. playerRect is the
rectangle of the player sprite; playerAlive is whether the player sprite is
still in its groups; enemies, shots and enemyBullets are the rectangles of
the live members of the corresponding groups in creation order; booms
records the center points at which Explosion sprites have been spawned, in
spawn order; score is the global SCORE counter. -/
structure GameState where
  playerRect : Rect
  playerAlive : Bool
  enemies : List Rect
  shots : List Rect
  enemyBullets : List Rect
  booms : List (Int × Int)
  score : Nat
deriving DecidableEq, Repr

/-- First collision check (src/main.py lines 377 to 383):
pg.sprite.spritecollide(player, enemies, 1) kills every enemy whose
rectangle overlaps the player rectangle and returns them; for each such
enemy the loop body spawns an Explosion at the enemy center and one at the
player center, increments SCORE by 1, and kills the player. -/
def playerEnemyStep (s : GameState) : GameState :=
  let crashed := s.enemies.filter (fun e => Rect.collide s.playerRect e)
  { s with
    enemies := s.enemies.filter (fun e => !Rect.collide s.playerRect e)
    booms := s.booms ++
      (crashed.map (fun e => [Rect.center e, Rect.center s.playerRect])).flatten
    score := s.score + crashed.length
    playerAlive := if crashed.isEmpty then s.playerAlive else false }

/-- Result of one pg.sprite.groupcollide(enemies, shots, 1, 1) pass plus its
scoring loop: the surviving enemies, the surviving shots, the number of
enemies killed, and the centers at which Explosions were spawned. -/
structure ShotRes where
  enemies : List Rect
  shots : List Rect
  kills : Nat
  booms : List (Int × Int)
deriving DecidableEq, Repr

/-- Embedding of pg.sprite.groupcollide(enemies, shots, 1, 1) together with
the loop of src/main.py lines 386 to 390: enemies are processed in group
order; for each, the shots currently alive that overlap it are killed, and
if there was at least one, the enemy is killed, an Explosion is spawned at
its center and SCORE is incremented by 1. Shots killed for an earlier enemy
are gone before a later enemy is tested. -/
def shotGo : List Rect → List Rect → ShotRes
  | [], shots => ⟨[], shots, 0, []⟩
  | e :: rest, shots =>
    if shots.any (fun sh => Rect.collide e sh) then
      let r := shotGo rest (shots.filter (fun sh => !Rect.collide e sh))
      ⟨r.enemies, r.shots, r.kills + 1, Rect.center e :: r.booms⟩
    else
      let r := shotGo rest shots
      ⟨e :: r.enemies, r.shots, r.kills, r.booms⟩

/-- Second collision check (src/main.py lines 386 to 390) acting on the
whole state. -/
def shotEnemyStep (s : GameState) : GameState :=
  let r := shotGo s.enemies s.shots
  { s with
    enemies := r.enemies
    shots := r.shots
    score := s.score + r.kills
    booms := s.booms ++ r.booms }

/-- Third collision check (src/main.py lines 393 to 397):
pg.sprite.spritecollide(player, enemy_bullets, 1) kills every enemy bullet
overlapping the player rectangle; for each, an Explosion is spawned at the
player center and the player is killed. SCORE is not touched. -/
def playerBulletStep (s : GameState) : GameState :=
  let hit := s.enemyBullets.filter (fun b => Rect.collide s.playerRect b)
  { s with
    enemyBullets := s.enemyBullets.filter (fun b => !Rect.collide s.playerRect b)
    booms := s.booms ++ hit.map (fun _ => Rect.center s.playerRect)
    playerAlive := if hit.isEmpty then s.playerAlive else false }

/-- The collision phase of one tick (src/main.py lines 376 to 397): the
three checks run in program order, each reading the state left by the
previous one. -/
def collisionPhase (s : GameState) : GameState :=
  playerBulletStep (shotEnemyStep (playerEnemyStep s))

/-- Number of enemies destroyed by the first check: those whose rectangle
overlaps the player rectangle at the start of the collision phase. -/
def playerEnemyKills (s : GameState) : Nat :=
  (s.enemies.filter (fun e => Rect.collide s.playerRect e)).length

/-- Number of enemies destroyed by the second check when it runs on
state t. -/
def shotEnemyKills (t : GameState) : Nat :=
  (shotGo t.enemies t.shots).kills

lemma shotGo_length (en sh : List Rect) :
    (shotGo en sh).enemies.length + (shotGo en sh).kills = en.length := by
  induction en generalizing sh with
  | nil => simp [shotGo]
  | cons e rest ih =>
    by_cases h : sh.any (fun x => Rect.collide e x)
    · simp only [shotGo, if_pos h]
      have := ih (sh.filter (fun x => !Rect.collide e x))
      simp only [List.length_cons]
      omega
    · simp only [shotGo, if_neg h, List.length_cons]
      have := ih sh
      omega

lemma length_filter_not_add (p : Rect → Bool) (l : List Rect) :
    (l.filter (fun x => !p x)).length + (l.filter p).length = l.length := by
  induction l with
  | nil => rfl
  | cons a t ih =>
    by_cases h : p a <;> simp [List.filter_cons, h] <;> omega

/-- C1: For every tick of a session, the Score counter never decreases, and
it increases by exactly the number of Enemies destroyed that tick through a
Player-vs-Enemy or Shot-vs-Enemy collision (which equals the drop in the
enemy population across the collision phase, the only place SCORE is
written); a Player-vs-EnemyBullet collision never changes the Score. -/
theorem score_exact_and_monotone (s : GameState) :
    (collisionPhase s).score =
      s.score + (playerEnemyKills s + shotEnemyKills (playerEnemyStep s)) ∧
    playerEnemyKills s + shotEnemyKills (playerEnemyStep s) =
      s.enemies.length - (collisionPhase s).enemies.length ∧
    (collisionPhase s).enemies.length ≤ s.enemies.length ∧
    s.score ≤ (collisionPhase s).score ∧
    (∀ t : GameState, (playerBulletStep t).score = t.score) := by
  have hscore : (collisionPhase s).score =
      s.score + (playerEnemyKills s + shotEnemyKills (playerEnemyStep s)) := by
    simp [collisionPhase, playerBulletStep, shotEnemyStep, playerEnemyStep,
      playerEnemyKills, shotEnemyKills, Nat.add_assoc]
  have hen : (collisionPhase s).enemies =
      (shotGo (s.enemies.filter (fun e => !Rect.collide s.playerRect e)) s.shots).enemies := by
    simp [collisionPhase, playerBulletStep, shotEnemyStep, playerEnemyStep]
  have h1 := shotGo_length
    (s.enemies.filter (fun e => !Rect.collide s.playerRect e)) s.shots
  have h2 := length_filter_not_add (fun e => Rect.collide s.playerRect e) s.enemies
  have hk2 : shotEnemyKills (playerEnemyStep s) =
      (shotGo (s.enemies.filter (fun e => !Rect.collide s.playerRect e)) s.shots).kills := by
    simp [shotEnemyKills, playerEnemyStep]
  refine ⟨hscore, ?_, ?_, ?_, fun t => rfl⟩
  · rw [hen, hk2]
    unfold playerEnemyKills
    omega
  · rw [hen]
    unfold playerEnemyKills at h2
    omega
  · rw [hscore]
    omega

/-- C2: Within the collision phase of a tick, the checks run in the fixed
order Player-vs-Enemy, then Shot-vs-Enemy, then Player-vs-EnemyBullet, and
destruction is immediate: an Enemy destroyed by the first check is gone
from the enemy population before the second check runs, which therefore
observes a strictly smaller population. -/
theorem collision_order_immediate (s : GameState)
    (h : ∃ e ∈ s.enemies, Rect.collide s.playerRect e = true) :
    collisionPhase s = playerBulletStep (shotEnemyStep (playerEnemyStep s)) ∧
    (playerEnemyStep s).enemies =
      s.enemies.filter (fun e => !Rect.collide s.playerRect e) ∧
    (∀ e ∈ s.enemies, Rect.collide s.playerRect e = true →
       e ∉ (playerEnemyStep s).enemies) ∧
    (playerEnemyStep s).enemies.length < s.enemies.length := by
  obtain ⟨e0, he0, hc0⟩ := h
  refine ⟨rfl, rfl, ?_, ?_⟩
  · intro e he hc hmem
    have := (List.mem_filter.mp hmem).2
    simp [hc] at this
  · exact List.length_filter_lt_length_iff_exists.mpr ⟨e0, he0, by simp [hc0]⟩

/-- Witness state for collision_order_immediate: the single enemy overlaps
the player. -/
def gsC2 : GameState :=
  { playerRect := ⟨200, 400, 40, 40⟩
    playerAlive := true
    enemies := [⟨210, 390, 30, 30⟩, ⟨0, 0, 30, 30⟩]
    shots := []
    enemyBullets := []
    booms := []
    score := 0 }

theorem collision_order_immediate_witness :
    collisionPhase gsC2 = playerBulletStep (shotEnemyStep (playerEnemyStep gsC2)) ∧
    (playerEnemyStep gsC2).enemies =
      gsC2.enemies.filter (fun e => !Rect.collide gsC2.playerRect e) ∧
    (∀ e ∈ gsC2.enemies, Rect.collide gsC2.playerRect e = true →
       e ∉ (playerEnemyStep gsC2).enemies) ∧
    (playerEnemyStep gsC2).enemies.length < gsC2.enemies.length :=
  collision_order_immediate gsC2 ⟨⟨210, 390, 30, 30⟩, by decide, by decide⟩

/-- Counterexample state for C3: the single enemy overlaps both the player
rectangle and the single shot rectangle. -/
def gsC3 : GameState :=
  { playerRect := ⟨200, 400, 40, 40⟩
    playerAlive := true
    enemies := [⟨210, 390, 30, 30⟩]
    shots := [⟨215, 380, 10, 20⟩]
    enemyBullets := []
    booms := []
    score := 0 }

/-- C3 counterexample: the claim says the Shot-vs-Enemy check tests overlaps
on the population as it existed when the collision phase began, regardless
of destruction by the earlier check. At gsC3 the Shot-vs-Enemy check
evaluated on the tick-start populations would destroy one enemy and the
shot (shotGo on the tick-start lists kills 1 and empties the shots), but
the actual collision phase leaves the shot alive and adds only the single
Player-vs-Enemy point, because the enemy was already destroyed by the first
check when the second ran. -/
theorem snapshot_semantics_refuted :
    (shotGo gsC3.enemies gsC3.shots).kills = 1 ∧
    (shotGo gsC3.enemies gsC3.shots).shots = [] ∧
    (collisionPhase gsC3).shots = gsC3.shots ∧
    gsC3.shots ≠ [] ∧
    (collisionPhase gsC3).score = gsC3.score + 1 := by decide

/-- C3 amended: only the Player-vs-Enemy check is evaluated against the
tick-start populations. The Shot-vs-Enemy check observes the tick-start
Shots (untouched by the first check) but only the Enemies surviving the
first check; the Player-vs-EnemyBullet check observes the tick-start
EnemyBullets (untouched by the first two checks) and the tick-start Player
rectangle, which persists through the phase even if the Player was
destroyed by an earlier check. -/
theorem collision_checks_observe_mutated_state (s : GameState) :
    (playerEnemyStep s).shots = s.shots ∧
    (playerEnemyStep s).enemyBullets = s.enemyBullets ∧
    (shotEnemyStep (playerEnemyStep s)).enemyBullets = s.enemyBullets ∧
    (collisionPhase s).playerRect = s.playerRect ∧
    (shotEnemyStep (playerEnemyStep s)).enemies =
      (shotGo (s.enemies.filter (fun e => !Rect.collide s.playerRect e))
        s.shots).enemies := by
  exact ⟨rfl, rfl, rfl, rfl, rfl⟩

/-- C10: when k enemies overlap the player on one tick, the first check
destroys all k of them and the player, adds exactly k to the score, and
spawns 2k Explosions: for each colliding enemy one at the enemy center and
one at the player center. -/
theorem player_enemy_collision_effects (s : GameState)
    (h : 1 ≤ playerEnemyKills s) :
    (playerEnemyStep s).enemies =
      s.enemies.filter (fun e => !Rect.collide s.playerRect e) ∧
    (playerEnemyStep s).playerAlive = false ∧
    (playerEnemyStep s).score = s.score + playerEnemyKills s ∧
    (playerEnemyStep s).booms = s.booms ++
      ((s.enemies.filter (fun e => Rect.collide s.playerRect e)).map
        (fun e => [Rect.center e, Rect.center s.playerRect])).flatten ∧
    (playerEnemyStep s).booms.length = s.booms.length + 2 * playerEnemyKills s := by
  have hne : (s.enemies.filter (fun e => Rect.collide s.playerRect e)).isEmpty = false := by
    unfold playerEnemyKills at h
    cases hl : s.enemies.filter (fun e => Rect.collide s.playerRect e) with
    | nil => rw [hl] at h; simp at h
    | cons a t => rfl
  refine ⟨rfl, ?_, rfl, rfl, ?_⟩
  · simp [playerEnemyStep, hne]
  · have hlen : ∀ l : List Rect,
        ((l.map (fun e => [Rect.center e, Rect.center s.playerRect])).flatten).length
          = 2 * l.length := by
      intro l
      induction l with
      | nil => simp
      | cons a t ih => simp [ih]; ring
    simp [playerEnemyStep, playerEnemyKills, hlen]

/-- Witness state for player_enemy_collision_effects: two enemies overlap
the player. -/
def gsC10 : GameState :=
  { playerRect := ⟨200, 400, 40, 40⟩
    playerAlive := true
    enemies := [⟨210, 390, 30, 30⟩, ⟨190, 410, 20, 20⟩, ⟨0, 0, 30, 30⟩]
    shots := []
    enemyBullets := []
    booms := []
    score := 5 }

theorem player_enemy_collision_effects_witness :
    (playerEnemyStep gsC10).enemies =
      gsC10.enemies.filter (fun e => !Rect.collide gsC10.playerRect e) ∧
    (playerEnemyStep gsC10).playerAlive = false ∧
    (playerEnemyStep gsC10).score = gsC10.score + playerEnemyKills gsC10 ∧
    (playerEnemyStep gsC10).booms = gsC10.booms ++
      ((gsC10.enemies.filter (fun e => Rect.collide gsC10.playerRect e)).map
        (fun e => [Rect.center e, Rect.center gsC10.playerRect])).flatten ∧
    (playerEnemyStep gsC10).booms.length =
      gsC10.booms.length + 2 * playerEnemyKills gsC10 :=
  player_enemy_collision_effects gsC10 (by decide)

/-- Firing logic of one tick (src/main.py lines 358 to 363): a Shot is
created iff the player is not reloading, the fire key is held, and fewer
than MAX_SHOTS shots are alive; afterwards the reloading flag is set to the
current fire-input state. Returns (shot created this tick, new reloading
flag). -/
def fireStep (reloading firing : Bool) (liveShots : Nat) : Bool × Bool :=
  (!reloading && firing && decide (liveShots < MAX_SHOTS), firing)

/-- Iterated firing logic: given the initial reloading flag and, per tick,
the fire-input state and the live shot count, returns per tick whether a
Shot was created. -/
def fireRun : Bool → List (Bool × Nat) → List Bool
  | _, [] => []
  | reloading, (firing, liveShots) :: rest =>
    (fireStep reloading firing liveShots).1 ::
      fireRun (fireStep reloading firing liveShots).2 rest

lemma fireRun_held_reloading (rest : List (Bool × Nat))
    (h : ∀ p ∈ rest, p.1 = true) :
    fireRun true rest = rest.map (fun _ => false) := by
  induction rest with
  | nil => rfl
  | cons p t ih =>
    obtain ⟨f, n⟩ := p
    have hf : f = true := h (f, n) (List.mem_cons_self _ _)
    subst hf
    simp only [fireRun, fireStep, List.map_cons, Bool.not_true, Bool.false_and]
    rw [ih (fun q hq => h q (List.mem_cons_of_mem _ hq))]

/-- C4: a Shot is created on a tick iff the reload lock is unset, the fire
input is held, and fewer than MAX_SHOTS = 2 Shots are alive; the reload
lock is then set to the current fire-input state; consequently a fire input
held continuously from a rising edge (a tick preceded by a not-held tick,
so the lock starts unset) creates a Shot only on that first tick (exactly
one when the live count is below the cap there), and none on the following
held ticks. -/
theorem firing_edge_triggered (reloading firing : Bool) (n n0 : Nat)
    (rest : List (Bool × Nat)) (hrest : ∀ p ∈ rest, p.1 = true) :
    ((fireStep reloading firing n).1 = true ↔
      reloading = false ∧ firing = true ∧ n < MAX_SHOTS) ∧
    (fireStep reloading firing n).2 = firing ∧
    fireRun false ((true, n0) :: rest) =
      decide (n0 < MAX_SHOTS) :: rest.map (fun _ => false) := by
  refine ⟨?_, rfl, ?_⟩
  · cases reloading <;> cases firing <;> simp [fireStep]
  · simp only [fireRun, fireStep, Bool.not_false, Bool.true_and]
    rw [fireRun_held_reloading rest hrest]

theorem firing_edge_triggered_witness :
    ((fireStep false true 0).1 = true ↔
      false = false ∧ true = true ∧ 0 < MAX_SHOTS) ∧
    (fireStep false true 0).2 = true ∧
    fireRun false ((true, 1) :: [(true, 2), (true, 2)]) =
      decide (1 < MAX_SHOTS) :: [(true, 2), (true, 2)].map (fun _ => false) :=
  firing_edge_triggered false true 0 1 [(true, 2), (true, 2)] (by decide)

/-- State read and written by the enemy-bullet spawning step of a tick
(src/main.py lines 373 to 374). enemies holds the identifiers of the live
Enemy sprites in creation order; lastenemy models the GroupSingle lastenemy:
it holds the most recently created Enemy while that sprite is alive and is
empty after that sprite is killed (killing a sprite removes it from every
group it belongs to); bullets records, per spawned EnemyBullet, the enemy it
was fired from; rng is the stream of uniform samples that random.random()
will return, each in the interval from 0 inclusive to 1 exclusive. -/
structure SpawnState where
  enemies : List Nat
  lastenemy : Option Nat
  bullets : List Nat
  rng : List ℚ
deriving DecidableEq

/-- Creation of an Enemy (src/main.py lines 125 to 130 with containers from
line 305): the new sprite joins the enemies group and replaces the occupant
of the GroupSingle lastenemy. -/
def spawnEnemy (s : SpawnState) (id : Nat) : SpawnState :=
  { s with enemies := s.enemies ++ [id], lastenemy := some id }

/-- Killing an Enemy sprite (pygame kill, as invoked by the collision
checks and by leaving the play field): the sprite is removed from every
group containing it, so it leaves the enemies group, and lastenemy becomes
empty when it was the occupant. -/
def killEnemy (s : SpawnState) (id : Nat) : SpawnState :=
  { s with
    enemies := s.enemies.filter (fun x => x != id)
    lastenemy := if s.lastenemy = some id then none else s.lastenemy }

/-- Enemy-bullet spawning step of one tick (src/main.py lines 373 to 374):
if the GroupSingle lastenemy is nonempty, one sample is drawn and an
EnemyBullet is spawned from the occupant iff the floor of the sample times
BULLET_ODDS is zero; if lastenemy is empty, the and-expression
short-circuits, so no sample is drawn and nothing spawns. -/
def enemyBulletStep (s : SpawnState) : SpawnState :=
  match s.lastenemy with
  | none => s
  | some id =>
    match s.rng with
    | [] => s
    | r :: rest =>
      if ⌊r * (BULLET_ODDS : ℚ)⌋ = 0 then
        { s with bullets := s.bullets ++ [id], rng := rest }
      else
        { s with rng := rest }

/-- Concrete counterexample state for C5, reached by spawning enemies 1 and
2 and then killing enemy 2 (the most recently created one): enemy 1 is
still alive but lastenemy is empty. -/
def ssC5 : SpawnState :=
  killEnemy (spawnEnemy (spawnEnemy ⟨[], none, [], [0]⟩ 1) 2) 2

/-- C5 counterexample: the claim says that on every tick with at least one
live Enemy a sample is drawn and an EnemyBullet spawns iff the floor of the
sample times BULLET_ODDS is zero. In state ssC5 an Enemy is alive and the
pending sample 0 satisfies that condition, yet the step spawns nothing and
does not even consume the sample, because the most recently created Enemy
has been destroyed and the GroupSingle lastenemy is empty. -/
theorem bullet_spawn_skipped_with_live_enemy :
    ssC5.enemies = [1] ∧
    ssC5.lastenemy = none ∧
    ssC5.rng = [0] ∧
    ⌊(0 : ℚ) * (BULLET_ODDS : ℚ)⌋ = 0 ∧
    enemyBulletStep ssC5 = ssC5 := by
  refine ⟨rfl, rfl, rfl, by simp, rfl⟩

/-- C5 amended: on every tick on which the most recently created Enemy is
still alive (lastenemy nonempty), one uniform sample is drawn and an
EnemyBullet is spawned from that Enemy iff the floor of the sample times
BULLET_ODDS is zero; on a tick on which the most recently created Enemy has
been destroyed, no sample is drawn and no EnemyBullet spawns, even if older
Enemies are alive. -/
theorem bullet_spawn_from_lastenemy (s : SpawnState) (id : Nat) (r : ℚ)
    (rest : List ℚ) (hlast : s.lastenemy = some id) (hrng : s.rng = r :: rest) :
    (enemyBulletStep s).rng = rest ∧
    (enemyBulletStep s).bullets =
      (if ⌊r * (BULLET_ODDS : ℚ)⌋ = 0 then s.bullets ++ [id] else s.bullets) ∧
    (∀ t : SpawnState, t.lastenemy = none → enemyBulletStep t = t) := by
  refine ⟨?_, ?_, ?_⟩
  · simp only [enemyBulletStep, hlast, hrng]
    by_cases h : ⌊r * (BULLET_ODDS : ℚ)⌋ = 0 <;> simp [h]
  · simp only [enemyBulletStep, hlast, hrng]
    by_cases h : ⌊r * (BULLET_ODDS : ℚ)⌋ = 0 <;> simp [h]
  · intro t ht
    simp only [enemyBulletStep, ht]

/-- Witness state for bullet_spawn_from_lastenemy: enemy 5 is alive and is
the occupant of lastenemy; the pending sample is 0. -/
def ssC5w : SpawnState := ⟨[5], some 5, [], [0]⟩

theorem bullet_spawn_from_lastenemy_witness :
    (enemyBulletStep ssC5w).rng = [] ∧
    (enemyBulletStep ssC5w).bullets =
      (if ⌊(0 : ℚ) * (BULLET_ODDS : ℚ)⌋ = 0 then ssC5w.bullets ++ [5]
        else ssC5w.bullets) ∧
    (∀ t : SpawnState, t.lastenemy = none → enemyBulletStep t = t) :=
  bullet_spawn_from_lastenemy ssC5w 5 0 [] rfl rfl

/-- Player state touched by Player.move (src/main.py lines 98 to 107):
position rectangle, facing, the top coordinate recorded at construction
(origtop), the index of the displayed image, and the animation frame
counter. -/
structure PlayerState where
  rect : Rect
  facing : Int
  origtop : Int
  imageIdx : Nat
  frame : Nat
deriving DecidableEq, Repr

/-- Horizontal clamp of pygame Rect.clamp against SCREENRECT: a rectangle
wider than the screen is centered, otherwise its left edge is moved the
minimal amount putting it fully inside the range from 0 to SCREEN_W. -/
def clampX (left width : Int) : Int :=
  if width ≥ SCREEN_W then SCREEN_W / 2 - width / 2
  else if left < 0 then 0
  else if left + width > SCREEN_W then SCREEN_W - width
  else left

/-- Player.move (src/main.py lines 98 to 107): a nonzero direction updates
facing and selects the left or right facing image; the rectangle moves by
direction times the speed 10 and is clamped to the screen; finally the top
is set to origtop minus the bounce offset, the Python floor division of the
clamped left edge by the bounce constant 24, modulo 2. The vertical clamp
performed by Rect.clamp is irrelevant because line 107 overwrites top. -/
def playerMove (p : PlayerState) (direction : Int) : PlayerState :=
  let facing := if direction ≠ 0 then direction else p.facing
  let left := clampX (p.rect.left + direction * 10) p.rect.width
  let imageIdx := if direction < 0 then 0 else if direction > 0 then 1 else p.imageIdx
  let top := p.origtop - Int.fmod (Int.fdiv left 24) 2
  { p with
    rect := ⟨left, top, p.rect.width, p.rect.height⟩
    facing := facing
    imageIdx := imageIdx }

/-- C6: after any Player.move with direction -1, 0 or 1, the player
rectangle lies fully within the horizontal bounds of the play field: left
edge at or above 0 and right edge at or below SCREEN_W = 640. The player
image is at most screen wide, stated here as hypotheses on the rectangle
size. -/
theorem player_move_clamped (p : PlayerState) (direction : Int)
    (_hd : direction = -1 ∨ direction = 0 ∨ direction = 1)
    (hw0 : 0 ≤ p.rect.width) (hw : p.rect.width ≤ SCREEN_W) :
    0 ≤ (playerMove p direction).rect.left ∧
    (playerMove p direction).rect.right ≤ SCREEN_W := by
  show 0 ≤ clampX (p.rect.left + direction * 10) p.rect.width ∧
    clampX (p.rect.left + direction * 10) p.rect.width + p.rect.width ≤ SCREEN_W
  unfold clampX SCREEN_W
  set x := p.rect.left + direction * 10 with hx
  set w := p.rect.width with hwdef
  unfold SCREEN_W at hw
  split
  · rename_i hbig
    have hweq : w = 640 := le_antisymm hw hbig
    rw [hweq]
    norm_num
  · split
    · omega
    · split <;> omega

/-- Witness player for player_move_clamped: moving right from near the
right wall. -/
def plW : PlayerState :=
  { rect := ⟨620, 430, 30, 30⟩, facing := -1, origtop := 450, imageIdx := 0, frame := 0 }

theorem player_move_clamped_witness :
    0 ≤ (playerMove plW 1).rect.left ∧ (playerMove plW 1).rect.right ≤ SCREEN_W :=
  player_move_clamped plW 1 (Or.inr (Or.inr rfl)) (by decide) (by decide)

/-- C7: after every Player.move the top edge equals origtop minus the
Python floor division of the resulting left edge by the bounce constant 24,
modulo 2; origtop is never changed by move, and therefore the vertical
wobble is a function of the horizontal position alone: two moves that land
on the same left edge from states sharing origtop produce the same top
edge, regardless of when they happen. -/
theorem player_bounce_from_position (p : PlayerState) (direction : Int) :
    (playerMove p direction).rect.top =
      p.origtop - Int.fmod (Int.fdiv (playerMove p direction).rect.left 24) 2 ∧
    (playerMove p direction).origtop = p.origtop ∧
    (∀ q : PlayerState, ∀ d : Int, q.origtop = p.origtop →
      (playerMove q d).rect.left = (playerMove p direction).rect.left →
      (playerMove q d).rect.top = (playerMove p direction).rect.top) := by
  refine ⟨rfl, rfl, ?_⟩
  intro q d htop hleft
  show q.origtop - Int.fmod (Int.fdiv (playerMove q d).rect.left 24) 2 =
    p.origtop - Int.fmod (Int.fdiv (playerMove p direction).rect.left 24) 2
  rw [htop, hleft]

theorem player_bounce_from_position_witness :
    (playerMove plW 0).rect.top =
      plW.origtop - Int.fmod (Int.fdiv (playerMove plW 0).rect.left 24) 2 ∧
    (playerMove plW 0).origtop = plW.origtop ∧
    (∀ q : PlayerState, ∀ d : Int, q.origtop = plW.origtop →
      (playerMove q d).rect.left = (playerMove plW 0).rect.left →
      (playerMove q d).rect.top = (playerMove plW 0).rect.top) :=
  player_bounce_from_position plW 0

/-- Player.update (src/main.py lines 113 to 115): the frame counter
increments, and the displayed image index is the incremented counter
divided by the animation cadence 12, modulo the 3 player frames. -/
def playerUpdate (p : PlayerState) : PlayerState :=
  let frame := p.frame + 1
  { p with frame := frame, imageIdx := frame / 12 % 3 }

/-- State of an Enemy sprite as touched by Enemy.update
(src/main.py lines 132 to 137). -/
structure EnemyState where
  rect : Rect
  frame : Nat
  imageIdx : Nat
  alive : Bool
deriving DecidableEq, Repr

/-- Enemy.update (src/main.py lines 132 to 137): the rectangle moves down
by the speed 5; the sprite is killed when its top reaches the screen
height; the frame counter increments and the image index is the counter
divided by the cadence 12 modulo the single enemy frame. -/
def enemyUpdate (e : EnemyState) : EnemyState :=
  let rect : Rect := ⟨e.rect.left, e.rect.top + 5, e.rect.width, e.rect.height⟩
  let alive := if rect.top ≥ SCREEN_H then false else e.alive
  let frame := e.frame + 1
  { rect := rect, frame := frame, imageIdx := frame / 12 % 1, alive := alive }

/-- State of an Explosion sprite as touched by Explosion.update
(src/main.py lines 153 to 164): the remaining life counter (an integer,
initialized to defaultlife = 12), the displayed image index over the two
explosion frames, and liveness. -/
structure ExplosionState where
  life : Int
  imageIdx : Int
  alive : Bool
deriving DecidableEq, Repr

/-- Explosion.update (src/main.py lines 153 to 164): the life counter
decrements; the image index is the Python floor division of the new life by
the cadence 3, modulo the 2 explosion frames; the sprite is killed once
life is at most 0. -/
def explosionUpdate (x : ExplosionState) : ExplosionState :=
  let life := x.life - 1
  { life := life
    imageIdx := Int.fmod (Int.fdiv life 3) 2
    alive := if life ≤ 0 then false else x.alive }

/-- A freshly spawned Explosion, life at defaultlife = 12
(src/main.py lines 143 and 151). -/
def explosionFresh : ExplosionState := ⟨12, 0, true⟩

/-- C8 counterexample: the claim says each tick increments the per-actor
frame counter of every animated kind and displays frame (counter divided by
cadence) modulo frameCount. For a fresh Explosion the counter (its life)
moves from 12 to 11, a decrement, and the displayed index is 1, while the
formula of the claim applied to an incremented counter would give
(13 / 3) % 2 = 0. -/
theorem explosion_counter_decrements :
    (explosionUpdate explosionFresh).life = explosionFresh.life - 1 ∧
    (explosionUpdate explosionFresh).life < explosionFresh.life ∧
    (explosionUpdate explosionFresh).imageIdx = 1 ∧
    Int.fmod (Int.fdiv (explosionFresh.life + 1) 3) 2 = 0 := by decide

/-- C8 amended: Player and Enemy increment their per-actor frame counter
each tick and display image index (counter / cadence) % frameCount, with
cadence 12 and 3 resp. 1 frames; the Explosion instead decrements its
remaining-life counter each tick and displays image index
(life floordiv 3) mod 2, dying when life reaches 0. -/
theorem animation_counters (p : PlayerState) (e : EnemyState)
    (x : ExplosionState) :
    (playerUpdate p).frame = p.frame + 1 ∧
    (playerUpdate p).imageIdx = (playerUpdate p).frame / 12 % 3 ∧
    (enemyUpdate e).frame = e.frame + 1 ∧
    (enemyUpdate e).imageIdx = (enemyUpdate e).frame / 12 % 1 ∧
    (explosionUpdate x).life = x.life - 1 ∧
    (explosionUpdate x).imageIdx =
      Int.fmod (Int.fdiv (explosionUpdate x).life 3) 2 ∧
    ((explosionUpdate x).life ≤ 0 → (explosionUpdate x).alive = false) := by
  refine ⟨rfl, rfl, rfl, rfl, rfl, rfl, ?_⟩
  intro h
  have h' : x.life - 1 ≤ 0 := h
  show (if x.life - 1 ≤ 0 then false else x.alive) = false
  rw [if_pos h']

theorem animation_counters_witness :
    (playerUpdate plW).frame = plW.frame + 1 ∧
    (playerUpdate plW).imageIdx = (playerUpdate plW).frame / 12 % 3 ∧
    (enemyUpdate ⟨⟨0, 0, 30, 30⟩, 0, 0, true⟩).frame =
      (⟨⟨0, 0, 30, 30⟩, 0, 0, true⟩ : EnemyState).frame + 1 ∧
    (enemyUpdate ⟨⟨0, 0, 30, 30⟩, 0, 0, true⟩).imageIdx =
      (enemyUpdate ⟨⟨0, 0, 30, 30⟩, 0, 0, true⟩).frame / 12 % 1 ∧
    (explosionUpdate explosionFresh).life = explosionFresh.life - 1 ∧
    (explosionUpdate explosionFresh).imageIdx =
      Int.fmod (Int.fdiv (explosionUpdate explosionFresh).life 3) 2 ∧
    ((explosionUpdate explosionFresh).life ≤ 0 →
      (explosionUpdate explosionFresh).alive = false) :=
  animation_counters plW ⟨⟨0, 0, 30, 30⟩, 0, 0, true⟩ explosionFresh

/-- Union of two rectangles (pygame Rect.union): the smallest rectangle
covering both. -/
def Rect.union (a b : Rect) : Rect :=
  let l := min a.left b.left
  let t := min a.top b.top
  ⟨l, t, max a.right b.right - l, max a.bottom b.bottom - t⟩

/-- Dirty rectangles contributed by a single sprite in RenderUpdates.draw,
the library call at src/main.py line 400: a sprite drawn for the first time
contributes its current rectangle; otherwise, if the current rectangle
overlaps the one drawn last tick, their union is reported, and if the two
are disjoint both are reported. -/
def spriteDirty (old : Option Rect) (curr : Rect) : List Rect :=
  match old with
  | none => [curr]
  | some o => if Rect.collide curr o then [Rect.union curr o] else [curr, o]

/-- Dirty-rectangle list returned by RenderUpdates.draw at src/main.py line
400 and passed to pg.display.update at line 401: the last-drawn rectangles
of sprites removed since the previous draw, followed by the per-sprite
dirty rectangles, where each live sprite is paired with the rectangle it
was drawn at last tick (none for a fresh sprite) and its current
rectangle. -/
def drawDirty (lost : List Rect) (sprites : List (Option Rect × Rect)) :
    List Rect :=
  lost ++ (sprites.map (fun pr => spriteDirty pr.1 pr.2)).flatten

/-- A rectangle that stays put between two ticks. -/
def steadyRect : Rect := ⟨100, 100, 20, 20⟩

/-- C9 counterexample: the claim says the dirty-rectangle set of a tick in
which no actor moved and no actor changed frame is empty. With a single
live sprite whose rectangle is unchanged since the previous draw and
nothing removed, the draw call still reports one dirty rectangle, the
sprite rectangle itself, so pixels are flushed. -/
theorem dirty_rects_not_empty_when_unchanged :
    drawDirty [] [(some steadyRect, steadyRect)] = [steadyRect] ∧
    drawDirty [] [(some steadyRect, steadyRect)] ≠ [] := by decide

lemma collide_self (r : Rect) (hw : 0 < r.width) (hh : 0 < r.height) :
    Rect.collide r r = true := by
  simp only [Rect.collide, Rect.right, Rect.bottom, Bool.and_eq_true,
    bne_iff_ne, ne_eq, decide_eq_true_eq]
  omega

lemma union_self (r : Rect) : Rect.union r r = r := by
  simp [Rect.union, Rect.right, Rect.bottom]

/-- C9 amended: on a tick in which no live actor moved or changed frame and
no actor was removed since the previous draw, the dirty-rectangle list
returned by the draw step is exactly one rectangle per live renderable
actor, namely its unchanged rectangle (the union of the coinciding old and
new rectangles); in particular it is nonempty whenever any actor is live,
and it is empty only when no actor is live. -/
theorem dirty_rects_when_unchanged (sprites : List (Option Rect × Rect))
    (hsame : ∀ pr ∈ sprites, pr.1 = some pr.2)
    (hpos : ∀ pr ∈ sprites, 0 < pr.2.width ∧ 0 < pr.2.height) :
    drawDirty [] sprites = sprites.map (fun pr => pr.2) ∧
    (sprites ≠ [] → drawDirty [] sprites ≠ []) := by
  have hmain : drawDirty [] sprites = sprites.map (fun pr => pr.2) := by
    induction sprites with
    | nil => rfl
    | cons pr rest ih =>
      have h1 : pr.1 = some pr.2 := hsame pr (List.mem_cons_self _ _)
      have h2 := hpos pr (List.mem_cons_self _ _)
      have ihr := ih (fun q hq => hsame q (List.mem_cons_of_mem _ hq))
        (fun q hq => hpos q (List.mem_cons_of_mem _ hq))
      simp only [drawDirty, List.map_cons, List.flatten_cons, List.nil_append] at ihr ⊢
      have hhead : spriteDirty (some pr.2) pr.2 = [pr.2] := by
        simp [spriteDirty, collide_self pr.2 h2.1 h2.2, union_self pr.2]
      rw [h1, hhead, List.singleton_append, ihr]
  refine ⟨hmain, ?_⟩
  intro hne
  rw [hmain]
  simpa using hne

theorem dirty_rects_when_unchanged_witness :
    drawDirty [] [(some steadyRect, steadyRect)] =
      [(some steadyRect, steadyRect)].map (fun pr => pr.2) ∧
    ([((some steadyRect : Option Rect), steadyRect)] ≠ [] →
      drawDirty [] [(some steadyRect, steadyRect)] ≠ []) :=
  dirty_rects_when_unchanged [(some steadyRect, steadyRect)]
    (by decide) (by decide)

end Strikers
